import Mathlib

/-!
Verification development for the Auto-Analyst repository.

The repository's core logic is embedded shallowly:
* `normalize_query`   — src/agent.py, `normalize_query` (the query-normalization rule chain);
* `chosen_question`   — src/agent.py, `DataAnalysisAgent.query`, lines 240-244
                        (the 70%-length acceptance rule for the normalized question);
* `clean_error_message` / `query_error_result`
                      — src/agent.py, `DataAnalysisAgent.query`, the `except` branch;
* `validate_dataframe`— src/utils.py, `validate_dataframe`;
* tracker functions   — src/tracker.py, `QueryTracker`.

Strings are modelled as `String` (lists of characters).  Python's regular
expressions in `normalize_query` are translated rule by rule into explicit
matching functions with the same backtracking behaviour; `\w`, `\s`, `\d`
and `str.lower`/`str.strip` are modelled over the ASCII range (the rule
table in the source only uses ASCII).  The success-rate float division is
modelled by exact rational arithmetic (`ℚ`); the acceptance comparison
`len(nq) > len(q) * 0.7` is modelled by the exact value of the IEEE-754
binary64 expression: the double nearest 0.7 multiplied by the length and
rounded to 53 significant bits, ties to even (`pyTimes07`), since the float
product can fall below the exact 70% boundary (e.g. `90 * 0.7 < 63`).
-/

namespace AutoAnalyst

/-! ### Character classes (ASCII model of Python `\w`, `\s`, `\d`, `str.lower`) -/

/-- Python regex `\w` (word character), ASCII range. -/
def isWordChar (c : Char) : Bool :=
  decide (('a' ≤ c ∧ c ≤ 'z') ∨ ('A' ≤ c ∧ c ≤ 'Z') ∨ ('0' ≤ c ∧ c ≤ '9') ∨ c = '_')

/-- Python regex `\s` / `str.strip` whitespace, ASCII range. -/
def isSpaceChar (c : Char) : Bool :=
  decide (c = ' ' ∨ c = '\t' ∨ c = '\n' ∨ c = '\r' ∨ c = '\x0b' ∨ c = '\x0c')

/-- Python regex `\d` (decimal digit), ASCII range. -/
def isDigitChar (c : Char) : Bool :=
  decide ('0' ≤ c ∧ c ≤ '9')

/-- ASCII lower-casing of one character (Python `str.lower`). -/
def toLowerChar (c : Char) : Char :=
  if 'A' ≤ c ∧ c ≤ 'Z' then Char.ofNat (c.toNat + 32) else c

/-- Python `str.lower` over the character list. -/
def toLowerL (l : List Char) : List Char := l.map toLowerChar

/-- Python `str.strip()`: remove leading and trailing whitespace. -/
def stripL (l : List Char) : List Char :=
  ((l.dropWhile isSpaceChar).reverse.dropWhile isSpaceChar).reverse

/-! ### Basic string operations -/

/-- If `pat` is a prefix of the text, return the remainder, else `none`. -/
def dropPrefix? : List Char → List Char → Option (List Char)
  | [], l => some l
  | _ :: _, [] => none
  | p :: ps, c :: cs => if p = c then dropPrefix? ps cs else none

/-- Python `pat in text` (substring test). -/
def containsSub (pat : List Char) : List Char → Bool
  | [] => pat.isEmpty
  | c :: rest => pat.isPrefixOf (c :: rest) || containsSub pat rest

/-- Fuel-driven worker for `replaceAll`; with `fuel ≥ text.length` it performs
Python `str.replace`: replace non-overlapping occurrences left to right. -/
def replaceAllF (pat repl : List Char) : Nat → List Char → List Char
  | _, [] => []
  | 0, l => l
  | Nat.succ fuel, c :: rest =>
    if pat.isPrefixOf (c :: rest) && !pat.isEmpty then
      repl ++ replaceAllF pat repl fuel (List.drop (pat.length - 1) rest)
    else
      c :: replaceAllF pat repl fuel rest

/-- Python `text.replace(pat, repl)` (all non-overlapping occurrences). -/
def replaceAll (pat repl l : List Char) : List Char :=
  replaceAllF pat repl l.length l

/-- Python `str.split()` with no argument: split on whitespace runs,
discarding empty pieces. -/
def pySplit (l : List Char) : List (List Char) :=
  (l.splitOnP isSpaceChar).filter (fun w => !w.isEmpty)

/-! ### Regex-rule matchers for `normalize_query` (src/agent.py lines 8-150)

Each matcher reproduces one `re.match` pattern of the source, including the
backtracking behaviour of alternations and optional groups.  A `\w+`, `\d+`
or `\s+` that is followed by a character it cannot match is equivalent to
taking the maximal run, which is how it is coded here. -/

/-- Pattern 0: `^how many (\w+) in each (\w+)`. -/
def matchHowManyEach (l : List Char) : Option (List Char × List Char) :=
  match dropPrefix? "how many ".data l with
  | none => none
  | some r =>
    let item := r.takeWhile isWordChar
    if item.isEmpty then none else
    match dropPrefix? " in each ".data (r.dropWhile isWordChar) with
    | none => none
    | some r2 =>
      let grp := r2.takeWhile isWordChar
      if grp.isEmpty then none else some (item, grp)

/-- Alternation `(op1|op2|...) (\w+)` tried in order, with regex backtracking:
if an alternative's literal matches but the following `\w+` fails, the next
alternative is tried.  Used by pattern 0c. -/
def tryOpsWord (r : List Char) : List (List Char) → Option (List Char × List Char)
  | [] => none
  | op :: more =>
    match dropPrefix? (op ++ [' ']) r with
    | some r1 =>
      let w := r1.takeWhile isWordChar
      if w.isEmpty then tryOpsWord r more else some (op, w)
    | none => tryOpsWord r more

/-- Pattern 0c: `^how much is the (total|average|sum|mean) (\w+)`. -/
def matchHowMuch (l : List Char) : Option (List Char × List Char) :=
  match dropPrefix? "how much is the ".data l with
  | some r => tryOpsWord r ["total".data, "average".data, "sum".data, "mean".data]
  | none => none

/-- Alternation `(op...) (?:of )?(\w+)` in order, with backtracking both over
the alternatives and over the greedy optional `(?:of )?`.  Used by pattern 0d. -/
def tryOpsOfWord (r : List Char) : List (List Char) → Option (List Char × List Char)
  | [] => none
  | op :: more =>
    match dropPrefix? (op ++ [' ']) r with
    | some r1 =>
      (match dropPrefix? "of ".data r1 with
       | some r2 =>
         let w := r2.takeWhile isWordChar
         if w.isEmpty then
           (let w2 := r1.takeWhile isWordChar
            if w2.isEmpty then tryOpsOfWord r more else some (op, w2))
         else some (op, w)
       | none =>
         let w := r1.takeWhile isWordChar
         if w.isEmpty then tryOpsOfWord r more else some (op, w))
    | none => tryOpsOfWord r more

/-- Pattern 0d:
`^what is the (average|sum|total|mean|median|max|min|maximum|minimum) (?:of )?(\w+)`. -/
def matchWhatIs (l : List Char) : Option (List Char × List Char) :=
  match dropPrefix? "what is the ".data l with
  | some r => tryOpsOfWord r
      ["average".data, "sum".data, "total".data, "mean".data, "median".data,
       "max".data, "min".data, "maximum".data, "minimum".data]
  | none => none

/-- Pattern 0e: `^what are the (\w+)`. -/
def matchWhatAre (l : List Char) : Option (List Char) :=
  match dropPrefix? "what are the ".data l with
  | some r =>
    let w := r.takeWhile isWordChar
    if w.isEmpty then none else some w
  | none => none

/-- Helper for pattern 0f: the `are` alternative of `^where (?:is|are) (\w+)`. -/
def matchesWhereAre (l : List Char) : Bool :=
  match dropPrefix? "where are ".data l with
  | some r => !(r.takeWhile isWordChar).isEmpty
  | none => false

/-- Pattern 0f: `^where (?:is|are) (\w+)` (only whether it matches is used;
the source builds the condition by `str.replace` on the whole lowered text). -/
def matchesWhere (l : List Char) : Bool :=
  match dropPrefix? "where is ".data l with
  | some r => if (r.takeWhile isWordChar).isEmpty then matchesWhereAre l else true
  | none => matchesWhereAre l

/-- Alternation `(act...) (?:me )?(.+)` in order with backtracking; `.` does
not match a newline, `(.+)` is greedy.  Used by pattern 0g. -/
def tryActsRest (r : List Char) : List (List Char) → Option (List Char × List Char)
  | [] => none
  | act :: more =>
    match dropPrefix? (act ++ [' ']) r with
    | some r1 =>
      (match dropPrefix? "me ".data r1 with
       | some r2 =>
         let rest := r2.takeWhile (fun c => c != '\n')
         if rest.isEmpty then
           (let rest2 := r1.takeWhile (fun c => c != '\n')
            if rest2.isEmpty then tryActsRest r more else some (act, rest2))
         else some (act, rest)
       | none =>
         let rest := r1.takeWhile (fun c => c != '\n')
         if rest.isEmpty then tryActsRest r more else some (act, rest))
    | none => tryActsRest r more

/-- Pattern 0g: `^can you (show|give|get|find|display) (?:me )?(.+)`. -/
def matchCanYou (l : List Char) : Option (List Char × List Char) :=
  match dropPrefix? "can you ".data l with
  | some r => tryActsRest r
      ["show".data, "give".data, "get".data, "find".data, "display".data]
  | none => none

/-- Alternation `(v...) (.+)` in order.  Used by pattern 0h. -/
def tryVerbsRest (r : List Char) : List (List Char) → Option (List Char)
  | [] => none
  | v :: more =>
    match dropPrefix? (v ++ [' ']) r with
    | some r1 =>
      let rest := r1.takeWhile (fun c => c != '\n')
      if rest.isEmpty then tryVerbsRest r more else some rest
    | none => tryVerbsRest r more

/-- Pattern 0h: `^i want to (see|know|find|get) (.+)`. -/
def matchIWant (l : List Char) : Option (List Char) :=
  match dropPrefix? "i want to ".data l with
  | some r => tryVerbsRest r ["see".data, "know".data, "find".data, "get".data]
  | none => none

/-- Literal followed by `\s+`: returns the text after the whitespace run. -/
def afterLitSpaces? (lit l : List Char) : Option (List Char) :=
  match dropPrefix? lit l with
  | some r =>
    let sp := r.takeWhile isSpaceChar
    if sp.isEmpty then none else some (r.dropWhile isSpaceChar)
  | none => none

/-- `{key}\s+(\w+)`: returns the captured column and the tail after it
(the tail stays in place under `re.sub`).  Used by pattern 1. -/
def keyColTail (key r : List Char) : Option (List Char × List Char) :=
  match afterLitSpaces? key r with
  | some r1 =>
    let col := r1.takeWhile isWordChar
    if col.isEmpty then none else some (col, r1.dropWhile isWordChar)
  | none => none

/-- `(?:the\s+)?{key}\s+(\w+)` with backtracking over the optional group. -/
def theKeyColTail (key r : List Char) : Option (List Char × List Char) :=
  match afterLitSpaces? "the".data r with
  | some r1 =>
    (match keyColTail key r1 with
     | some x => some x
     | none => keyColTail key r)
  | none => keyColTail key r

/-- `(?:has|have)\s+(?:the\s+)?{key}\s+(\w+)` over the verb alternatives. -/
def verbsKeyCol (key r : List Char) : List (List Char) → Option (List Char × List Char)
  | [] => none
  | v :: more =>
    match afterLitSpaces? v r with
    | some r1 =>
      (match theKeyColTail key r1 with
       | some x => some x
       | none => verbsKeyCol key r more)
    | none => verbsKeyCol key r more

/-- `(?:which|who|what)\s+...` over the subject alternatives. -/
def subjVerbsKeyCol (key l : List Char) : List (List Char) → Option (List Char × List Char)
  | [] => none
  | s :: more =>
    match afterLitSpaces? s l with
    | some r =>
      (match verbsKeyCol key r ["has".data, "have".data] with
       | some x => some x
       | none => subjVerbsKeyCol key l more)
    | none => subjVerbsKeyCol key l more

/-- Pattern 1 template:
`^(?:which|who|what)\s+(?:has|have)\s+(?:the\s+)?{key}\s+(\w+)`. -/
def matchWhoHas (key l : List Char) : Option (List Char × List Char) :=
  subjVerbsKeyCol key l ["which".data, "who".data, "what".data]

/-- Pattern 1: the four max/min templates tried in order; the first match is
substituted by `re.sub`, which keeps the text after the matched span. -/
def matchMaxMin (l : List Char) : Option (List Char) :=
  match matchWhoHas "highest".data l with
  | some (col, tl) => some ("show the row where ".data ++ col ++ " is maximum".data ++ tl)
  | none =>
  match matchWhoHas "lowest".data l with
  | some (col, tl) => some ("show the row where ".data ++ col ++ " is minimum".data ++ tl)
  | none =>
  match matchWhoHas "max".data l with
  | some (col, tl) => some ("show the row where ".data ++ col ++ " is maximum".data ++ tl)
  | none =>
  match matchWhoHas "min".data l with
  | some (col, tl) => some ("show the row where ".data ++ col ++ " is minimum".data ++ tl)
  | none => none

/-- Pattern 2: `^top\s+(\d+)\s+(?:by\s+)?(\w+)`. -/
def matchTop (l : List Char) : Option (List Char × List Char) :=
  match afterLitSpaces? "top".data l with
  | none => none
  | some r =>
    let n := r.takeWhile isDigitChar
    if n.isEmpty then none else
    let r1 := r.dropWhile isDigitChar
    let sp := r1.takeWhile isSpaceChar
    if sp.isEmpty then none else
    let r2 := r1.dropWhile isSpaceChar
    match afterLitSpaces? "by".data r2 with
    | some r3 =>
      let w := r3.takeWhile isWordChar
      if w.isEmpty then
        (let w2 := r2.takeWhile isWordChar
         if w2.isEmpty then none else some (n, w2))
      else some (n, w)
    | none =>
      let w := r2.takeWhile isWordChar
      if w.isEmpty then none else some (n, w)

/-- The `top\s+(\d+)\s+(?:by|rows by)\s+(\w+)` suffix of pattern 3. -/
def sortTopAfter (r : List Char) : Option (List Char × List Char) :=
  match afterLitSpaces? "top".data r with
  | none => none
  | some r1 =>
    let n := r1.takeWhile isDigitChar
    if n.isEmpty then none else
    let r2 := r1.dropWhile isDigitChar
    let sp := r2.takeWhile isSpaceChar
    if sp.isEmpty then none else
    let r3 := r2.dropWhile isSpaceChar
    match afterLitSpaces? "by".data r3 with
    | some r4 =>
      let w := r4.takeWhile isWordChar
      if w.isEmpty then
        (match afterLitSpaces? "rows by".data r3 with
         | some r5 =>
           let w2 := r5.takeWhile isWordChar
           if w2.isEmpty then none else some (n, w2)
         | none => none)
      else some (n, w)
    | none =>
      match afterLitSpaces? "rows by".data r3 with
      | some r5 =>
        let w2 := r5.takeWhile isWordChar
        if w2.isEmpty then none else some (n, w2)
      | none => none

/-- Pattern 3: `^sort\s+(?:the\s+)?top\s+(\d+)\s+(?:by|rows by)\s+(\w+)`. -/
def matchSortTop (l : List Char) : Option (List Char × List Char) :=
  match afterLitSpaces? "sort".data l with
  | none => none
  | some r =>
    match afterLitSpaces? "the".data r with
    | some r1 =>
      (match sortTopAfter r1 with
       | some x => some x
       | none => sortTopAfter r)
    | none => sortTopAfter r

/-- Pattern 5: `^(\w+)\s+(?:department|employees|workers)`. -/
def matchDept (l : List Char) : Option (List Char) :=
  let w := l.takeWhile isWordChar
  if w.isEmpty then none else
  let r := l.dropWhile isWordChar
  let sp := r.takeWhile isSpaceChar
  if sp.isEmpty then none else
  let r2 := r.dropWhile isSpaceChar
  if "department".data.isPrefixOf r2 || "employees".data.isPrefixOf r2 ||
     "workers".data.isPrefixOf r2 then some w else none

/-- Pattern 7 helper: `any(question_lower.startswith(word) for word in action_words)`
with `action_words = [show, display, get, find, calculate, list, count]`. -/
def actionAny (l : List Char) : Bool :=
  "show".data.isPrefixOf l || "display".data.isPrefixOf l || "get".data.isPrefixOf l ||
  "find".data.isPrefixOf l || "calculate".data.isPrefixOf l || "list".data.isPrefixOf l ||
  "count".data.isPrefixOf l

/-- Pattern 7 helper: `any(word in question_lower for word in [sort, filter, where, group])`. -/
def filterAny (l : List Char) : Bool :=
  containsSub "sort".data l || containsSub "filter".data l ||
  containsSub "where".data l || containsSub "group".data l

/-- Pattern 8: the abbreviation replacement table, applied in source order. -/
def expandAbbrev (l : List Char) : List Char :=
  replaceAll " avg ".data " average ".data
    (replaceAll " sal ".data " salary ".data
      (replaceAll " dept ".data " department ".data
        (replaceAll " perf ".data " performance ".data
          (replaceAll " exp ".data " experience ".data l))))

/-- src/agent.py, `normalize_query` (lines 8-150).  `ql` is the
`question_lower` of the source: it is computed once from the stripped input
and never updated, while the live text (`q1`, `q2`, ...) is overwritten by
each rule that fires. -/
def normalize_query (s : String) : String :=
  let q0 := stripL s.data
  let ql := toLowerL q0
  let q1 :=
    match matchHowManyEach ql with
    | some (item, grp) => "count ".data ++ item ++ " in each ".data ++ grp
    | none =>
      if "how many ".data.isPrefixOf ql then
        "count total number of ".data ++ stripL (replaceAll "how many ".data [] ql)
      else q0
  let q2 :=
    match matchHowMuch ql with
    | some (op, col) => "calculate the ".data ++ op ++ " of ".data ++ col
    | none => q1
  let q3 :=
    match matchWhatIs ql with
    | some (op, col) =>
      if op == "max".data || op == "maximum".data then
        "show the row where ".data ++ col ++ " is maximum".data
      else if op == "min".data || op == "minimum".data then
        "show the row where ".data ++ col ++ " is minimum".data
      else "calculate the ".data ++ op ++ " of ".data ++ col
    | none => q2
  let q4 :=
    match matchWhatAre ql with
    | some col =>
      if containsSub "unique".data ql then q3
      else "show unique values in ".data ++ col ++ " column".data
    | none => q3
  let q5 :=
    if matchesWhere ql then
      "show rows where ".data ++
        replaceAll "where are ".data [] (replaceAll "where is ".data [] ql)
    else q4
  let q6 :=
    match matchCanYou ql with
    | some (act, rest) => act ++ [' '] ++ rest
    | none => q5
  let q7 :=
    match matchIWant ql with
    | some rest => "show ".data ++ rest
    | none => q6
  let q8 :=
    if "tell me ".data.isPrefixOf ql then
      "show ".data ++ replaceAll "tell me ".data [] ql
    else q7
  let q9 :=
    if "give me ".data.isPrefixOf ql then
      "show ".data ++ replaceAll "give me ".data [] ql
    else q8
  let q10 :=
    match matchMaxMin ql with
    | some s1 => s1
    | none => q9
  let q11 :=
    match matchTop ql with
    | some (n, col) =>
      "sort by ".data ++ col ++ " descending and show first ".data ++ n ++ " rows".data
    | none => q10
  let q12 :=
    match matchSortTop ql with
    | some (n, col) =>
      "sort by ".data ++ col ++ " descending and show first ".data ++ n ++ " rows".data
    | none => q11
  let q13 :=
    if "average ".data.isPrefixOf ql && (pySplit q12).length == 2 then
      "calculate the average of ".data ++ (pySplit q12).getD 1 []
    else q12
  let q14 :=
    match matchDept ql with
    | some dept =>
      if "show".data.isPrefixOf ql then q13
      else "show all rows where department equals ".data ++ dept
    | none => q13
  let q15 :=
    if ql == "oldest".data || ql == "who is oldest".data ||
       ql == "oldest employee".data || ql == "who is the oldest".data then
      "show the row where age is maximum".data
    else if ql == "youngest".data || ql == "who is youngest".data ||
       ql == "youngest employee".data || ql == "who is the youngest".data then
      "show the row where age is minimum".data
    else if ql == "best performer".data || ql == "best employee".data ||
       ql == "highest performer".data || ql == "who is the best".data then
      "show the row where performance_score is maximum".data
    else q14
  let q16 := if !(actionAny ql) && filterAny ql then "show ".data ++ q15 else q15
  String.mk (expandAbbrev q16)

/-! ### Orchestrator pieces of `DataAnalysisAgent.query` (src/agent.py) -/

/-- Numerator of the IEEE-754 binary64 double nearest to 0.7: the Python
float literal `0.7` denotes exactly `float07num / 2 ^ 53`
(= 0.6999999999999999555910790149937383830547332763671875). -/
def float07num : Nat := 6305039478318694

/-- Fuel-driven search for the number of binary digits of `n` beyond 53,
i.e. the least `s` with `n / 2 ^ s < 2 ^ 53`; `fuel ≥ n` always suffices. -/
def shiftF : Nat → Nat → Nat
  | 0, _ => 0
  | Nat.succ fuel, n => if n < 2 ^ 53 then 0 else shiftF fuel (n / 2) + 1

/-- Round a natural number to 53 significant binary digits, ties to even:
`roundSig53 N / 2 ^ 53` is the IEEE-754 binary64 value nearest to
`N / 2 ^ 53` (the exponent range is ignored: no realizable string length
comes near overflow). -/
def roundSig53 (N : Nat) : Nat :=
  let s := shiftF N N
  if s = 0 then N
  else
    let q := N / 2 ^ s
    let r := N % 2 ^ s
    let half := 2 ^ (s - 1)
    let q1 :=
      if half < r then q + 1
      else if r < half then q
      else if q % 2 = 0 then q else q + 1
    q1 * 2 ^ s

/-- The exact value of the Python float expression `b * 0.7` for an integer
`b` (string lengths are far below `2 ^ 53`, hence exactly representable):
the double nearest 0.7 times `b`, rounded to nearest, ties to even. -/
def pyTimes07 (b : Nat) : ℚ := (roundSig53 (b * float07num) : ℚ) / 2 ^ 53

/-- src/agent.py lines 240-244: the question actually used by `query` after
the acceptance rule.  The Python comparison `len(nq) > len(q) * 0.7`
compares the integer length with the float product exactly (CPython int/float
comparison is exact): `len(nq) > pyTimes07 (len q)`, written here with the
denominator `2 ^ 53` cleared so that the condition is integer arithmetic
(`pyTimes07_lt_iff` below proves the two forms equivalent). -/
def chosen_question (q : String) : String :=
  let nq := normalize_query q
  if nq ≠ q ∧ 2 ^ 53 * nq.length > roundSig53 (q.length * float07num) then nq else q

/-- Python `', '.join(columns)`. -/
def joinCommaSp : List String → String
  | [] => ""
  | [c] => c
  | c :: cs => c ++ ", " ++ joinCommaSp cs

/-- Python `pat in s` on `String`s. -/
def strContains (s pat : String) : Bool := containsSub pat.data s.data

/-- Python `s.lower()` on `String`s (ASCII model). -/
def lowerStr (s : String) : String := String.mk (toLowerL s.data)

/-- Python `s[:n]` on `String`s. -/
def takeStr (n : Nat) (s : String) : String := String.mk (s.data.take n)

/-- src/agent.py lines 283-295: the error-message clean-up performed in the
`except` branch of `DataAnalysisAgent.query`.  `cols` stands for
`self.df.columns.tolist()`. -/
def clean_error_message (cols : List String) (msg : String) : String :=
  if strContains msg "Could not parse LLM output" then
    "The AI is having trouble understanding this query. Try using simpler phrasing like \x27show first 5 rows\x27 or \x27calculate average salary\x27."
  else if strContains (lowerStr msg) "column" && strContains (lowerStr msg) "not found" then
    "Column not found. Available columns are: " ++ joinCommaSp cols
  else if strContains (lowerStr msg) "parsing" then
    "Query format issue. Try rephrasing more simply, like \x27show rows where salary > 80000\x27."
  else if msg.length > 200 then
    takeStr 200 msg ++ "... (Try a simpler query)"
  else msg

/-- The dictionary returned by `DataAnalysisAgent.query`. -/
structure QueryOutcome where
  success : Bool
  result : Option String
  error : Option String
deriving DecidableEq

/-- src/agent.py lines 283-301: the value `query` returns when the agent
invocation raised an error with message `msg`. -/
def query_error_result (cols : List String) (msg : String) : QueryOutcome :=
  { success := false, result := none, error := some (clean_error_message cols msg) }

/-! ### src/utils.py: `validate_dataframe` -/

/-- A table: named columns and rows of cells; a cell is modelled by its
null-flag (`true` = null/missing), which is all `validate_dataframe` reads. -/
structure DataFrame where
  columns : List String
  rows : List (List Bool)
deriving DecidableEq

/-- src/utils.py lines 60-78.  `df.empty` in pandas is true when either axis
has length zero. -/
def validate_dataframe : Option DataFrame → Bool × String
  | none => (false, "Dataframe is None")
  | some df =>
    if df.rows.isEmpty || df.columns.isEmpty then (false, "Dataframe is empty")
    else if df.columns.length == 0 then (false, "No columns found")
    else if df.rows.all (fun r => r.all fun b => b) then (false, "All values are null")
    else (true, "")

/-! ### src/tracker.py: `QueryTracker` -/

/-- One entry of `st.session_state.query_history`. -/
structure QueryLogEntry where
  timestamp : String
  query : String
  success : Bool
  error : Option String
deriving DecidableEq

/-- `QueryTracker.log_query`: append an entry (`ts` stands for the
`datetime.now().isoformat()` value, supplied externally). -/
def log_query (hist : List QueryLogEntry) (ts q : String) (ok : Bool)
    (err : Option String) : List QueryLogEntry :=
  hist ++ [⟨ts, q, ok, err⟩]

/-- `QueryTracker.get_success_rate`: `0.0` on empty history, else
`(successful / total) * 100` (float division modelled by `ℚ`). -/
def get_success_rate (hist : List QueryLogEntry) : ℚ :=
  if hist.isEmpty then 0
  else ((hist.filter fun e => e.success).length : ℚ) / (hist.length : ℚ) * 100

/-- `QueryTracker.get_total_queries`. -/
def get_total_queries (hist : List QueryLogEntry) : Nat := hist.length

/-- `QueryTracker.get_recent_queries`: Python `history[-n:]`.  For `n > 0`
this is the last `min n len` entries; for `n = 0` the slice `[-0:] = [0:]`
is the whole history. -/
def get_recent_queries (hist : List QueryLogEntry) (n : Nat) : List QueryLogEntry :=
  if n = 0 then hist else hist.drop (hist.length - n)

/-- `QueryTracker.clear_history`. -/
def clear_history (_hist : List QueryLogEntry) : List QueryLogEntry := []

/-- Tracker histories reachable from the initial empty history by any
sequence of `log_query` and `clear_history` operations. -/
inductive TrackerReachable : List QueryLogEntry → Prop
  | init : TrackerReachable []
  | log (h : List QueryLogEntry) (ts q : String) (ok : Bool) (err : Option String) :
      TrackerReachable h → TrackerReachable (log_query h ts q ok err)
  | clear (h : List QueryLogEntry) :
      TrackerReachable h → TrackerReachable (clear_history h)

end AutoAnalyst

/-! ### Helper lemmas -/

namespace AutoAnalyst

theorem dropPrefix?_append (p l : List Char) : dropPrefix? p (p ++ l) = some l := by
  induction p with
  | nil => rfl
  | cons c cs ih => simp [dropPrefix?, ih]

theorem containsSub_cons (pat : List Char) (c : Char) (l : List Char) :
    containsSub pat (c :: l) = (pat.isPrefixOf (c :: l) || containsSub pat l) := rfl

theorem replaceAllF_not_contains (pat repl : List Char) (fuel : Nat) (l : List Char)
    (h : containsSub pat l = false) : replaceAllF pat repl fuel l = l := by
  induction fuel generalizing l with
  | zero => cases l <;> rfl
  | succ n ih =>
    cases l with
    | nil => rfl
    | cons c rest =>
      rw [containsSub_cons] at h
      rcases Bool.or_eq_false_iff.mp h with ⟨h1, h2⟩
      simp [replaceAllF, h1, ih rest h2]

theorem replaceAll_not_contains (pat repl l : List Char)
    (h : containsSub pat l = false) : replaceAll pat repl l = l :=
  replaceAllF_not_contains pat repl l.length l h

theorem pyTimes07_lt_iff (a b : Nat) :
    ((a : ℚ) > pyTimes07 b) ↔ 2 ^ 53 * a > roundSig53 (b * float07num) := by
  unfold pyTimes07
  rw [gt_iff_lt, div_lt_iff₀ (by positivity : (0 : ℚ) < 2 ^ 53), gt_iff_lt]
  constructor
  · intro h
    have h2 : ((roundSig53 (b * float07num) : ℕ) : ℚ) < ((2 ^ 53 * a : ℕ) : ℚ) := by
      push_cast
      linarith
    exact_mod_cast h2
  · intro h
    have h2 : ((roundSig53 (b * float07num) : ℕ) : ℚ) < ((2 ^ 53 * a : ℕ) : ℚ) := by
      exact_mod_cast h
    push_cast at h2
    linarith

end AutoAnalyst

/-! ### Claim theorems -/

namespace AutoAnalyst

/-- C3: `normalize` is not a true mathematical idempotent: there is an input
string on which running `normalize_query` twice differs from running it once
(the abbreviation pass of rule 18 can create a fresh ` exp ` occurrence). -/
theorem claim_C3 :
    ∃ s : String, normalize_query (normalize_query s) ≠ normalize_query s :=
  ⟨"show exp exp b", by decide⟩

/-- C5: `normalize` is total: the embedding is a total Lean function (the
Python body uses only total string/regex operations), so every input — the
empty string included — yields a result string; moreover the empty string
maps to the empty string. -/
theorem claim_C5 :
    (∀ s : String, ∃ t : String, normalize_query s = t) ∧ normalize_query "" = "" :=
  ⟨fun s => ⟨normalize_query s, rfl⟩, by decide⟩

/-- C4 fails as stated: the code compares against the float product
`len(q) * 0.7`, not the exact 70% boundary.  At the 90-character question
below, normalization (rule 0i strips every "tell me " occurrence) yields a
63-character rewrite; `90 * 0.7 = 62.99999999999999` in binary64, so the code
replaces the question although 63 is not strictly greater than 70% of 90. -/
theorem claim_C4_counterexample :
    chosen_question
        "tell me tell me tell me tell me aaaaaaaaaaaaaaaaaaaaaaaaaaaaaaaaaaaaaaaaaaaaaaaaaaaaaaaaaa" =
      normalize_query
        "tell me tell me tell me tell me aaaaaaaaaaaaaaaaaaaaaaaaaaaaaaaaaaaaaaaaaaaaaaaaaaaaaaaaaa" ∧
    normalize_query
        "tell me tell me tell me tell me aaaaaaaaaaaaaaaaaaaaaaaaaaaaaaaaaaaaaaaaaaaaaaaaaaaaaaaaaa" ≠
      "tell me tell me tell me tell me aaaaaaaaaaaaaaaaaaaaaaaaaaaaaaaaaaaaaaaaaaaaaaaaaaaaaaaaaa" ∧
    ¬(10 * (normalize_query
        "tell me tell me tell me tell me aaaaaaaaaaaaaaaaaaaaaaaaaaaaaaaaaaaaaaaaaaaaaaaaaaaaaaaaaa").length >
      7 * ("tell me tell me tell me tell me aaaaaaaaaaaaaaaaaaaaaaaaaaaaaaaaaaaaaaaaaaaaaaaaaaaaaaaaaa" : String).length) := by
  refine ⟨?_, by decide, by decide⟩
  decide

/-- C4 (amended): `DataAnalysisAgent.query` replaces the original question by
the normalized one exactly when the normalized form differs from the original
and its length strictly exceeds the IEEE-754 binary64 value of
`len(original) * 0.7` (`pyTimes07`); otherwise the original text is kept.
This agrees with the exact strict-70% rule except where the float product
rounds below the exact boundary (first at original length 90, normalized
length 63, as in the counterexample). -/
theorem claim_C4 (q : String) :
    (normalize_query q ≠ q ∧ ((normalize_query q).length : ℚ) > pyTimes07 q.length →
      chosen_question q = normalize_query q) ∧
    (¬(normalize_query q ≠ q ∧ ((normalize_query q).length : ℚ) > pyTimes07 q.length) →
      chosen_question q = q) := by
  have hiff := pyTimes07_lt_iff (normalize_query q).length q.length
  constructor
  · rintro ⟨h1, h2⟩
    unfold chosen_question
    rw [if_pos ⟨h1, hiff.mp h2⟩]
  · intro h
    unfold chosen_question
    rw [if_neg]
    rintro ⟨h1, h2⟩
    exact h ⟨h1, hiff.mpr h2⟩

/-- Witness for C4 at concrete inputs: the boundary question of the
counterexample passes the float acceptance test and is replaced, and an
unchanged question is kept. -/
theorem claim_C4_witness :
    chosen_question
        "tell me tell me tell me tell me aaaaaaaaaaaaaaaaaaaaaaaaaaaaaaaaaaaaaaaaaaaaaaaaaaaaaaaaaa" =
      normalize_query
        "tell me tell me tell me tell me aaaaaaaaaaaaaaaaaaaaaaaaaaaaaaaaaaaaaaaaaaaaaaaaaaaaaaaaaa" ∧
    chosen_question "hello" = "hello" :=
  ⟨(claim_C4
      "tell me tell me tell me tell me aaaaaaaaaaaaaaaaaaaaaaaaaaaaaaaaaaaaaaaaaaaaaaaaaaaaaaaaaa").1
      ⟨by decide,
       (pyTimes07_lt_iff
          (normalize_query
            "tell me tell me tell me tell me aaaaaaaaaaaaaaaaaaaaaaaaaaaaaaaaaaaaaaaaaaaaaaaaaaaaaaaaaa").length
          ("tell me tell me tell me tell me aaaaaaaaaaaaaaaaaaaaaaaaaaaaaaaaaaaaaaaaaaaaaaaaaaaaaaaaaa" : String).length).mpr
        (by decide)⟩,
   (claim_C4 "hello").2
     (fun h => absurd (by decide : normalize_query "hello" = "hello") h.1)⟩

/-- C6: `validate_dataframe` rejects (false, non-empty reason) an absent
table, a zero-row table, a zero-column table, and an all-null table; and it
accepts (true, "") any table with at least one row, at least one column and
at least one non-null cell. -/
theorem claim_C6 (t : Option DataFrame) :
    (t = none → (validate_dataframe t).1 = false ∧ (validate_dataframe t).2 ≠ "") ∧
    (∀ df : DataFrame, t = some df →
      (df.rows = [] ∨ df.columns = [] ∨ df.rows.all (fun r => r.all fun b => b) = true) →
      (validate_dataframe t).1 = false ∧ (validate_dataframe t).2 ≠ "") ∧
    (∀ df : DataFrame, t = some df → df.rows ≠ [] → df.columns ≠ [] →
      (∃ r ∈ df.rows, ∃ b ∈ r, b = false) →
      validate_dataframe t = (true, "")) := by
  refine ⟨?_, ?_, ?_⟩
  · rintro rfl
    exact ⟨rfl, by decide⟩
  · rintro df rfl hcase
    simp only [validate_dataframe]
    split_ifs with h1 h2 h3
    · exact ⟨rfl, by decide⟩
    · exact ⟨rfl, by decide⟩
    · exact ⟨rfl, by decide⟩
    · rcases hcase with h | h | h
      · simp [h] at h1
      · simp [h] at h1
      · exact absurd h h3
  · rintro df rfl hrows hcols hcell
    simp only [validate_dataframe]
    rw [if_neg, if_neg, if_neg]
    · intro hall
      rcases hcell with ⟨r, hr, b, hb, rfl⟩
      have h1 := List.all_eq_true.mp hall r hr
      have h2 := List.all_eq_true.mp h1 false hb
      exact Bool.false_ne_true h2
    · simpa using hcols
    · simp [List.isEmpty_iff, hrows, hcols]

/-- Witness for C6: a `none` table is rejected and a 1×1 table with one
non-null cell is accepted. -/
theorem claim_C6_witness :
    ((validate_dataframe none).1 = false ∧ (validate_dataframe none).2 ≠ "") ∧
    validate_dataframe (some ⟨["a"], [[false]]⟩) = (true, "") :=
  ⟨(claim_C6 none).1 rfl,
   (claim_C6 (some ⟨["a"], [[false]]⟩)).2.2 ⟨["a"], [[false]]⟩ rfl (by decide) (by decide)
     (by decide)⟩

/-- C7 fails as stated: for requested count `n = 0`, Python `history[-0:]`
returns the whole history, not the last `min 0 len = 0` entries. -/
theorem claim_C7_counterexample :
    (get_recent_queries [⟨"t1", "q1", true, none⟩] 0).length ≠
      min 0 ([⟨"t1", "q1", true, none⟩] : List QueryLogEntry).length := by decide

/-- C7 (amended): for every requested count `n ≥ 1`, `recent(n)` returns the
last `min n len` entries of the history, in insertion order (it is the suffix
left after dropping the first `len - n` entries); fewer than `n` entries are
returned only when the history is shorter than `n`.  For `n = 0` the code
returns the entire history instead of the empty slice. -/
theorem claim_C7 (hist : List QueryLogEntry) (n : Nat) (h : 0 < n) :
    (get_recent_queries hist n).length = min n hist.length ∧
    hist.take (hist.length - n) ++ get_recent_queries hist n = hist := by
  unfold get_recent_queries
  rw [if_neg (Nat.pos_iff_ne_zero.mp h)]
  refine ⟨?_, List.take_append_drop _ _⟩
  rw [List.length_drop]
  omega

/-- Witness for C7 at a concrete two-entry history with `n = 1`. -/
theorem claim_C7_witness :
    (get_recent_queries [⟨"t1", "a", true, none⟩, ⟨"t2", "b", false, none⟩] 1).length =
      min 1 ([⟨"t1", "a", true, none⟩, ⟨"t2", "b", false, none⟩] : List QueryLogEntry).length ∧
    ([⟨"t1", "a", true, none⟩, ⟨"t2", "b", false, none⟩] : List QueryLogEntry).take
        (([⟨"t1", "a", true, none⟩, ⟨"t2", "b", false, none⟩] : List QueryLogEntry).length - 1) ++
      get_recent_queries [⟨"t1", "a", true, none⟩, ⟨"t2", "b", false, none⟩] 1 =
      [⟨"t1", "a", true, none⟩, ⟨"t2", "b", false, none⟩] :=
  claim_C7 [⟨"t1", "a", true, none⟩, ⟨"t2", "b", false, none⟩] 1 (by decide)

/-- C8: `successRate()` is `0` on an empty history and otherwise
`100 × (number of successful entries) / (total count)`, and `totalCount()`
is the number of entries. -/
theorem claim_C8 (hist : List QueryLogEntry) :
    get_success_rate hist =
      (if hist.isEmpty then (0 : ℚ)
       else 100 * ((hist.filter fun e => e.success).length : ℚ) / (hist.length : ℚ)) ∧
    get_total_queries hist = hist.length := by
  refine ⟨?_, rfl⟩
  unfold get_success_rate
  by_cases h : hist.isEmpty <;> simp [h]
  ring

/-- C10: on every tracker history reachable by any sequence of `log` and
`clear` operations, the success rate lies between 0 and 100. -/
theorem claim_C10 (hist : List QueryLogEntry) (_h : TrackerReachable hist) :
    0 ≤ get_success_rate hist ∧ get_success_rate hist ≤ 100 := by
  unfold get_success_rate
  by_cases h : hist.isEmpty
  · simp [h]
  · rw [if_neg h]
    constructor
    · positivity
    · have h1 : ((hist.filter fun e => e.success).length : ℚ) ≤ (hist.length : ℚ) := by
        exact_mod_cast List.length_filter_le _ _
      have h2 : (0 : ℚ) < (hist.length : ℚ) := by
        have hne : hist ≠ [] := by simpa [List.isEmpty_iff] using h
        exact_mod_cast List.length_pos.mpr hne
      rw [div_mul_eq_mul_div, div_le_iff₀ h2]
      nlinarith

/-- Witness for C10 at the reachable one-entry history obtained by logging
one successful query into the initial empty history. -/
theorem claim_C10_witness :
    0 ≤ get_success_rate (log_query [] "t" "q" true none) ∧
    get_success_rate (log_query [] "t" "q" true none) ≤ 100 :=
  claim_C10 _ (TrackerReachable.log _ _ _ _ _ TrackerReachable.init)

/-- C9: when the agent raises an error whose message contains none of the
recognized substrings, `query` returns a failure whose error text is the raw
message if it has at most 200 characters, else its first 200 characters with
the rephrase hint appended. -/
theorem claim_C9 (cols : List String) (msg : String)
    (h1 : strContains msg "Could not parse LLM output" = false)
    (h2 : (strContains (lowerStr msg) "column" && strContains (lowerStr msg) "not found") = false)
    (h3 : strContains (lowerStr msg) "parsing" = false) :
    (query_error_result cols msg).success = false ∧
    (query_error_result cols msg).error =
      some (if msg.length ≤ 200 then msg
            else takeStr 200 msg ++ "... (Try a simpler query)") := by
  refine ⟨rfl, ?_⟩
  unfold query_error_result clean_error_message
  simp only [h1, h2, h3, Bool.false_eq_true, if_false]
  split_ifs with ha hb
  · omega
  · rfl
  · rfl
  · omega

/-- Witness for C9 at a short unrecognized message. -/
theorem claim_C9_witness :
    (query_error_result [] "boom").success = false ∧
    (query_error_result [] "boom").error =
      some (if ("boom" : String).length ≤ 200 then ("boom" : String)
            else takeStr 200 "boom" ++ "... (Try a simpler query)") :=
  claim_C9 [] "boom" (by decide) (by decide) (by decide)

end AutoAnalyst
namespace AutoAnalyst

/-- C1 fails as stated: rule 17 tests the original lowered text, so a
grouping word like "group" in the question adds a "show " prefix, and rule 18
still expands abbreviations inside the rewritten text. -/
theorem claim_C1_counterexample :
    normalize_query "how many dept in each group" ≠ "count dept in each group" := by decide

/-- C1 (amended): if the lowered stripped question matches
`^how many (\w+) in each (\w+)` with captures `item` and `grp`, then —
provided the lowered question contains none of the substrings "sort",
"filter", "where", "group" (rule 17) and the rewritten text contains none of
the abbreviation tokens of rule 18 — `normalize_query` returns exactly
`count {item} in each {grp}`. -/
theorem claim_C1_amended (q : String) (x item grp : List Char)
    (hpre : toLowerL (stripL q.data) = "how many ".data ++ x)
    (hm : matchHowManyEach (toLowerL (stripL q.data)) = some (item, grp))
    (hs : containsSub "sort".data (toLowerL (stripL q.data)) = false)
    (hf : containsSub "filter".data (toLowerL (stripL q.data)) = false)
    (hw : containsSub "where".data (toLowerL (stripL q.data)) = false)
    (hg : containsSub "group".data (toLowerL (stripL q.data)) = false)
    (ha1 : containsSub " exp ".data ("count ".data ++ item ++ " in each ".data ++ grp) = false)
    (ha2 : containsSub " perf ".data ("count ".data ++ item ++ " in each ".data ++ grp) = false)
    (ha3 : containsSub " dept ".data ("count ".data ++ item ++ " in each ".data ++ grp) = false)
    (ha4 : containsSub " sal ".data ("count ".data ++ item ++ " in each ".data ++ grp) = false)
    (ha5 : containsSub " avg ".data ("count ".data ++ item ++ " in each ".data ++ grp) = false) :
    normalize_query q = String.mk ("count ".data ++ item ++ " in each ".data ++ grp) := by
  rw [hpre] at hm hs hf hw hg
  simp only [normalize_query]
  rw [hpre, hm]
  have hfa : filterAny ("how many ".data ++ x) = false := by
    simp only [filterAny]
    rw [hs, hf, hw, hg]
    rfl
  rw [hfa]
  show String.mk (expandAbbrev ("count ".data ++ item ++ " in each ".data ++ grp)) =
    String.mk ("count ".data ++ item ++ " in each ".data ++ grp)
  simp only [expandAbbrev]
  rw [replaceAll_not_contains _ _ _ ha1, replaceAll_not_contains _ _ _ ha2,
    replaceAll_not_contains _ _ _ ha3, replaceAll_not_contains _ _ _ ha4,
    replaceAll_not_contains _ _ _ ha5]

/-- Witness for C1 at "how many cats in each house". -/
theorem claim_C1_witness :
    normalize_query "how many cats in each house" =
      String.mk ("count ".data ++ "cats".data ++ " in each ".data ++ "house".data) :=
  claim_C1_amended "how many cats in each house" "cats in each house".data
    "cats".data "house".data
    (by decide) (by decide) (by decide) (by decide) (by decide) (by decide)
    (by decide) (by decide) (by decide) (by decide) (by decide)

/-- C2 fails as stated: rule 17 always fires afterwards (the original text
starts with "where", which is not an action word and contains "where"), so
the result carries a double "show " prefix. -/
theorem claim_C2_counterexample :
    normalize_query "where is x" ≠ "show rows where x" := by decide

/-- C2 (amended): for a question whose lowered stripped text matches
`^where (?:is|are) (\w+)`, `normalize_query` returns the rule-18 abbreviation
expansion of `show show rows where {condition}`, where `{condition}` is the
lowered text with every occurrence of "where is " removed and then every
occurrence of "where are " removed — i.e. an extra "show " prefix is added by
rule 17, and all (not only the leading) occurrences are stripped. -/
theorem claim_C2_amended (q : String) (x : List Char)
    (hql : toLowerL (stripL q.data) = "where is ".data ++ x ∨
           toLowerL (stripL q.data) = "where are ".data ++ x)
    (hmw : matchesWhere (toLowerL (stripL q.data)) = true) :
    normalize_query q = String.mk (expandAbbrev ("show show rows where ".data ++
      replaceAll "where are ".data [] (replaceAll "where is ".data []
        (toLowerL (stripL q.data))))) := by
  rcases hql with h | h
  · rw [h] at hmw
    simp only [normalize_query]
    rw [h, hmw]
    have hfa : filterAny ("where is ".data ++ x) = true := by
      simp only [filterAny]
      rw [show containsSub "where".data ("where is ".data ++ x) = true from rfl]
      simp only [Bool.true_or, Bool.or_true]
    rw [hfa]
    rfl
  · rw [h] at hmw
    simp only [normalize_query]
    rw [h, hmw]
    have hfa : filterAny ("where are ".data ++ x) = true := by
      simp only [filterAny]
      rw [show containsSub "where".data ("where are ".data ++ x) = true from rfl]
      simp only [Bool.true_or, Bool.or_true]
    rw [hfa]
    rfl

/-- Witness for C2 at "where is x". -/
theorem claim_C2_witness :
    normalize_query "where is x" =
      String.mk (expandAbbrev ("show show rows where ".data ++
        replaceAll "where are ".data [] (replaceAll "where is ".data []
          (toLowerL (stripL ("where is x" : String).data))))) :=
  claim_C2_amended "where is x" "x".data (Or.inl (by decide)) (by decide)

end AutoAnalyst
